import Mathlib

/-!
Verification of the ticket-service seat-inventory logic (src/index.js).

The service stores Ticket records in a single collection and exposes
List / Get / Create / Update / Delete plus the two seat-ledger operations
Reserve (POST /api/tickets/:id/reserve) and Release
(POST /api/tickets/:id/release).  The definitions below are a shallow
embedding of those handlers: seat counts are modelled as `Int` (the
handlers do plain JS arithmetic on numbers), prices as `Rat`, dates and
timestamps as `Int` milliseconds, and identifiers as `String`
(MongoDB ObjectId hex strings).
-/

namespace TicketService

/-- The `status` enum of the mongoose ticket schema:
`active`, `sold-out`, `cancelled`, `completed`. -/
inductive Status
  | active
  | soldOut
  | cancelled
  | completed
deriving DecidableEq, Repr

/-- The `eventType` enum of the mongoose ticket schema. -/
inductive EventType
  | movie
  | concert
  | sports
  | theater
  | conference
  | other
deriving DecidableEq, Repr

/-- A stored Ticket record, mirroring the mongoose schema field by field.
`date`, `createdAt`, `updatedAt` are milliseconds since the epoch. -/
structure Ticket where
  id : String
  eventName : String
  eventType : EventType
  venue : String
  date : Int
  time : String
  price : Rat
  currency : String
  totalSeats : Int
  availableSeats : Int
  description : Option String
  imageUrl : Option String
  status : Status
  createdAt : Int
  updatedAt : Int
deriving DecidableEq, Repr

/-- Outcome of the reserve handler once the ticket was found: either the
200 success path or the 400 insufficient-seats path. -/
inductive ReserveResult
  | ok
  | insufficient
deriving DecidableEq, Repr

/-- The reserve handler body after `findById` succeeded
(src/index.js lines 218-228): if `availableSeats < quantity` answer 400
and leave the record untouched; otherwise decrement `availableSeats`,
set `status` to sold-out exactly when the result is 0, refresh
`updatedAt` and save. -/
def reserve (t : Ticket) (quantity : Int) (now : Int) : ReserveResult × Ticket :=
  if t.availableSeats < quantity then
    (ReserveResult.insufficient, t)
  else
    let remaining := t.availableSeats - quantity
    let newStatus := if remaining = 0 then Status.soldOut else t.status
    (ReserveResult.ok,
      { t with availableSeats := remaining, status := newStatus, updatedAt := now })

/-- The release handler body after `findById` succeeded
(src/index.js lines 246-252): unconditionally add `quantity` to
`availableSeats` (no clamp against `totalSeats`), flip a sold-out status
back to active when the new count is positive, refresh `updatedAt` and
save.  There is no failure path once the ticket exists. -/
def release (t : Ticket) (quantity : Int) (now : Int) : Ticket :=
  let seats := t.availableSeats + quantity
  let newStatus :=
    if 0 < seats ∧ t.status = Status.soldOut then Status.active else t.status
  { t with availableSeats := seats, status := newStatus, updatedAt := now }

/-- A concrete ticket used to evaluate the handlers on explicit inputs. -/
def sampleTicket : Ticket :=
  { id := "aaaaaaaaaaaaaaaaaaaaaaaa"
    eventName := "Rock Concert 2024"
    eventType := EventType.concert
    venue := "Madison Square Garden"
    date := 1734220800000
    time := "20:00"
    price := 85
    currency := "USD"
    totalSeats := 500
    availableSeats := 5
    description := none
    imageUrl := none
    status := Status.active
    createdAt := 0
    updatedAt := 0 }

/-- C4: for every existing ticket and every quantity strictly greater than
the ticket's `availableSeats`, Reserve answers InsufficientSeats and
returns the stored record entirely unchanged (no field, `updatedAt`
included, is modified). -/
theorem c4_insufficient_seats_unchanged (t : Ticket) (quantity now : Int)
    (h : t.availableSeats < quantity) :
    reserve t quantity now = (ReserveResult.insufficient, t) := by
  simp only [reserve, if_pos h]

/-- Witness for C4 at a concrete input: the sample ticket has 5 available
seats, so reserving 1000 fails and leaves the record unchanged. -/
theorem c4_insufficient_seats_witness :
    sampleTicket.availableSeats < 1000 ∧
      reserve sampleTicket 1000 9 = (ReserveResult.insufficient, sampleTicket) :=
  ⟨by decide, c4_insufficient_seats_unchanged sampleTicket 1000 9 (by decide)⟩

/-- C5: a successful Reserve that drives `availableSeats` to exactly 0 sets
`status` to sold-out; a Release of at least 1 seat on a sold-out ticket
(whose seat count is non-negative) sets `status` back to active; a Reserve
that leaves `availableSeats` positive does not change `status`. -/
theorem c5_status_transitions :
    (∀ (t : Ticket) (q now : Int), q ≤ t.availableSeats →
        t.availableSeats - q = 0 →
        (reserve t q now).1 = ReserveResult.ok ∧
          (reserve t q now).2.status = Status.soldOut) ∧
    (∀ (t : Ticket) (q now : Int), t.status = Status.soldOut →
        0 ≤ t.availableSeats → 1 ≤ q →
        (release t q now).status = Status.active) ∧
    (∀ (t : Ticket) (q now : Int), q ≤ t.availableSeats →
        0 < t.availableSeats - q →
        (reserve t q now).2.status = t.status) := by
  refine ⟨?_, ?_, ?_⟩
  · intro t q now hq hz
    have hn : ¬ t.availableSeats < q := not_lt.mpr hq
    simp [reserve, hn, hz]
  · intro t q now hst h0 h1
    have hpos : (0 : Int) < t.availableSeats + q := by omega
    simp [release, hst, hpos]
  · intro t q now hq hpos
    have hn : ¬ t.availableSeats < q := not_lt.mpr hq
    have hz : t.availableSeats - q ≠ 0 := by omega
    simp [reserve, hn, hz]

/-- Witness for C5 at concrete inputs: reserving all 5 seats of the sample
ticket marks it sold-out; releasing 1 seat from the resulting sold-out
ticket reactivates it; reserving 2 of 5 seats keeps the status. -/
theorem c5_status_transitions_witness :
    ((reserve sampleTicket 5 3).1 = ReserveResult.ok ∧
      (reserve sampleTicket 5 3).2.status = Status.soldOut) ∧
    (release (reserve sampleTicket 5 3).2 1 4).status = Status.active ∧
    (reserve sampleTicket 2 3).2.status = sampleTicket.status :=
  ⟨c5_status_transitions.1 sampleTicket 5 3 (by decide) (by decide),
   c5_status_transitions.2.1 (reserve sampleTicket 5 3).2 1 4
     (by decide) (by decide) (by decide),
   c5_status_transitions.2.2 sampleTicket 2 3 (by decide) (by decide)⟩

/-- C6: Release adds the quantity to `availableSeats` with no clamp against
`totalSeats`: whenever the released quantity exceeds the current deficit
`totalSeats - availableSeats`, the operation still goes through and leaves
`availableSeats` strictly above `totalSeats`. -/
theorem c6_release_unclamped (t : Ticket) (quantity now : Int)
    (h : t.totalSeats - t.availableSeats < quantity) :
    (release t quantity now).availableSeats > t.totalSeats := by
  simp only [release]
  omega

/-- Witness for C6 at a concrete input: the sample ticket has a deficit of
495 seats, and releasing 500 pushes `availableSeats` to 505 > 500. -/
theorem c6_release_unclamped_witness :
    sampleTicket.totalSeats - sampleTicket.availableSeats < 500 ∧
      (release sampleTicket 500 7).availableSeats > sampleTicket.totalSeats :=
  ⟨by decide, c6_release_unclamped sampleTicket 500 7 (by decide)⟩

/-- The payload accepted by the create handler (POST /api/tickets,
src/index.js lines 178-187): the required schema fields plus the optional
ones; `currency` and `status` fall back to the schema defaults. -/
structure CreateInput where
  eventName : String
  eventType : EventType
  venue : String
  date : Int
  time : String
  price : Rat
  currency : Option String
  totalSeats : Int
  availableSeats : Int
  description : Option String
  imageUrl : Option String
  status : Option Status
deriving DecidableEq, Repr

/-- Creation of a ticket document: caller-supplied fields, schema defaults
`currency = "USD"` and `status = active`, and server-assigned id,
`createdAt`, `updatedAt`. -/
def createTicket (input : CreateInput) (id : String) (now : Int) : Ticket :=
  { id := id
    eventName := input.eventName
    eventType := input.eventType
    venue := input.venue
    date := input.date
    time := input.time
    price := input.price
    currency := input.currency.getD "USD"
    totalSeats := input.totalSeats
    availableSeats := input.availableSeats
    description := input.description
    imageUrl := input.imageUrl
    status := input.status.getD Status.active
    createdAt := now
    updatedAt := now }

/-- A partial record for the update handler (PUT /api/tickets/:id,
src/index.js lines 190-206): only the supplied fields are overwritten. -/
structure TicketPatch where
  eventName? : Option String
  price? : Option Rat
  totalSeats? : Option Int
  availableSeats? : Option Int
  status? : Option Status
deriving DecidableEq, Repr

/-- The update handler body: `findByIdAndUpdate` overwrites exactly the
supplied fields and stamps `updatedAt = now` (the handler injects
`req.body.updatedAt = new Date()` before the call). -/
def applyUpdate (t : Ticket) (p : TicketPatch) (now : Int) : Ticket :=
  { t with
    eventName := p.eventName?.getD t.eventName
    price := p.price?.getD t.price
    totalSeats := p.totalSeats?.getD t.totalSeats
    availableSeats := p.availableSeats?.getD t.availableSeats
    status := p.status?.getD t.status
    updatedAt := now }

/-- One seat-affecting operation on a single ticket. -/
inductive SeatOp
  | reserveOp (quantity : Int) (now : Int)
  | releaseOp (quantity : Int) (now : Int)
  | updateOp (p : TicketPatch) (now : Int)
deriving DecidableEq, Repr

/-- Apply one operation to the stored record (the reserve failure path
leaves the record unchanged, as in the handler). -/
def applySeatOp (t : Ticket) : SeatOp → Ticket
  | SeatOp.reserveOp q now => (reserve t q now).2
  | SeatOp.releaseOp q now => release t q now
  | SeatOp.updateOp p now => applyUpdate t p now

/-- The seat invariant of the data model: `0 ≤ availableSeats ≤ totalSeats`. -/
def seatInvariant (t : Ticket) : Prop :=
  0 ≤ t.availableSeats ∧ t.availableSeats ≤ t.totalSeats

instance (t : Ticket) : Decidable (seatInvariant t) :=
  inferInstanceAs (Decidable (_ ∧ _))

/-- An operation uses a valid, in-bounds quantity at the state it is
applied to: Reserve needs a positive quantity at most `availableSeats`,
Release a positive quantity at most the deficit `totalSeats -
availableSeats`, and an Update may only write seat fields that keep the
record in bounds. -/
def validOp (t : Ticket) : SeatOp → Prop
  | SeatOp.reserveOp q _ => 0 < q ∧ q ≤ t.availableSeats
  | SeatOp.releaseOp q _ => 0 < q ∧ q ≤ t.totalSeats - t.availableSeats
  | SeatOp.updateOp p now => seatInvariant (applyUpdate t p now)

instance (t : Ticket) : (op : SeatOp) → Decidable (validOp t op)
  | SeatOp.reserveOp _ _ => inferInstanceAs (Decidable (_ ∧ _))
  | SeatOp.releaseOp _ _ => inferInstanceAs (Decidable (_ ∧ _))
  | SeatOp.updateOp _ _ => inferInstanceAs (Decidable (_ ∧ _))

/-- Every operation of the sequence is valid at the state it encounters. -/
def validOps (t : Ticket) : List SeatOp → Prop
  | [] => True
  | op :: rest => validOp t op ∧ validOps (applySeatOp t op) rest

instance validOpsDecidable : (t : Ticket) → (ops : List SeatOp) → Decidable (validOps t ops)
  | _, [] => isTrue trivial
  | t, op :: rest =>
    have : Decidable (validOps (applySeatOp t op) rest) := validOpsDecidable _ rest
    inferInstanceAs (Decidable (_ ∧ _))

/-- Run a whole sequence of seat operations. -/
def applySeatOps (t : Ticket) (ops : List SeatOp) : Ticket :=
  ops.foldl applySeatOp t

lemma seatInvariant_applySeatOp {t : Ticket} {op : SeatOp}
    (hinv : seatInvariant t) (hop : validOp t op) :
    seatInvariant (applySeatOp t op) := by
  obtain ⟨h0, h1⟩ := hinv
  cases op with
  | reserveOp q now =>
    obtain ⟨hq0, hq1⟩ := hop
    have hn : ¬ t.availableSeats < q := not_lt.mpr hq1
    simp only [applySeatOp, reserve, if_neg hn, seatInvariant]
    constructor <;> omega
  | releaseOp q now =>
    obtain ⟨hq0, hq1⟩ := hop
    simp only [applySeatOp, release, seatInvariant]
    constructor <;> omega
  | updateOp p now =>
    exact hop

/-- C2: starting from a ticket created with in-bounds seat counts, any
sequence of Reserve, Release and Update operations that uses valid
in-bounds quantities keeps `0 ≤ availableSeats ≤ totalSeats` true of the
stored record. -/
theorem c2_seat_invariant_preserved (input : CreateInput) (id : String)
    (now : Int) (ops : List SeatOp)
    (hinit : 0 ≤ input.availableSeats ∧ input.availableSeats ≤ input.totalSeats)
    (hval : validOps (createTicket input id now) ops) :
    seatInvariant (applySeatOps (createTicket input id now) ops) := by
  have hinv : seatInvariant (createTicket input id now) := hinit
  clear hinit
  generalize createTicket input id now = t at hval hinv ⊢
  induction ops generalizing t with
  | nil => exact hinv
  | cons op rest ih =>
    obtain ⟨hop, hrest⟩ := hval
    exact ih (applySeatOp t op) hrest (seatInvariant_applySeatOp hinv hop)

/-- A concrete create payload used as C2 witness input: 3 of 5 seats. -/
def sampleInput : CreateInput :=
  { eventName := "BlockBuster Movie Premiere"
    eventType := EventType.movie
    venue := "AMC Theater"
    date := 1732924800000
    time := "19:30"
    price := 25
    currency := none
    totalSeats := 5
    availableSeats := 3
    description := none
    imageUrl := none
    status := none }

/-- A concrete operation sequence used as C2 witness: reserve 2, release 1,
then update `availableSeats` to 5. -/
def sampleOps : List SeatOp :=
  [SeatOp.reserveOp 2 1, SeatOp.releaseOp 1 2,
   SeatOp.updateOp ⟨none, none, none, some 5, none⟩ 3]

/-- Witness for C2 at a concrete input: a valid three-operation run on a
freshly created 3-of-5-seat ticket ends inside the seat bounds. -/
theorem c2_seat_invariant_witness :
    (0 ≤ sampleInput.availableSeats ∧
        sampleInput.availableSeats ≤ sampleInput.totalSeats) ∧
      validOps (createTicket sampleInput "b" 0) sampleOps ∧
      seatInvariant (applySeatOps (createTicket sampleInput "b" 0) sampleOps) :=
  ⟨by decide, by decide,
    c2_seat_invariant_preserved sampleInput "b" 0 sampleOps (by decide) (by decide)⟩

/-- C3 evaluation: the handlers perform no quantity validation at all.
Reserving a quantity of -3 from the sample ticket (5 seats available)
passes the `availableSeats < quantity` guard, reports success, and
INCREASES `availableSeats` to 8; reserving 0 also reports success; and
releasing -3 silently removes 3 seats.  The spec instead demands a
ValidationError with the ticket unchanged in each of these cases. -/
theorem c3_no_quantity_validation :
    (reserve sampleTicket (-3) 7).1 = ReserveResult.ok ∧
      (reserve sampleTicket (-3) 7).2.availableSeats = 8 ∧
      (reserve sampleTicket 0 7).1 = ReserveResult.ok ∧
      (reserve sampleTicket 0 7).2.updatedAt = 7 ∧
      (release sampleTicket (-3) 7).availableSeats = 2 := by
  decide

/-- The write-back half of the reserve handler, operating on the document
snapshot it read earlier: `none` models the 400 early return (nothing is
saved), `some t` models `ticket.save()` overwriting the stored record with
the mutated snapshot.  The guard and the arithmetic only ever look at the
snapshot, never at the current stored value — exactly the
read-modify-write of src/index.js lines 212-228. -/
def commitReserve (snapshot : Ticket) (quantity now : Int) : Option Ticket :=
  match reserve snapshot quantity now with
  | (ReserveResult.insufficient, _) => none
  | (ReserveResult.ok, t) => some t

/-- Outcome of two racing reserve calls: each call's success flag and the
record left in the store. -/
structure RaceOutcome where
  okA : Bool
  okB : Bool
  finalTicket : Ticket
deriving DecidableEq, Repr

/-- Two concurrent Reserve calls A and B on the same ticket under the
schedule read-A, read-B, write-A, write-B (a schedule nothing in the
handler rules out, since `findById` and `save` are separate awaited
steps with no conditional update or lock in between).  Both calls read
the same stored record `t0`; each then checks and decrements its own
snapshot; a successful `save` overwrites the store last-write-wins. -/
def twoInterleavedReserves (t0 : Ticket) (qA qB nowA nowB : Int) : RaceOutcome :=
  let snapA := t0
  let snapB := t0
  let afterA :=
    match commitReserve snapA qA nowA with
    | some t => t
    | none => t0
  let final :=
    match commitReserve snapB qB nowB with
    | some t => t
    | none => afterA
  { okA := (commitReserve snapA qA nowA).isSome
    okB := (commitReserve snapB qB nowB).isSome
    finalTicket := final }

/-- Number of reserve calls that reported success. -/
def successCount (r : RaceOutcome) : Nat :=
  (if r.okA then 1 else 0) + (if r.okB then 1 else 0)

/-- A ticket with exactly 2 seats left, the C1 race input. -/
def raceTicket : Ticket :=
  { sampleTicket with totalSeats := 2, availableSeats := 2 }

/-- C1 evaluation: with `availableSeats = N = 2` and `K = 2` concurrent
Reserve calls of `q = 2` seats each (`K*q = 4 > 2 = N`), the claim demands
exactly `floor(N/q) = 1` success.  Under the read-read-write-write
interleaving the handler allows, BOTH calls pass the guard and report
success — 4 seats are sold out of 2 — so the handler is not the atomic
conditional update the claim asserts. -/
theorem c1_interleaved_reserves_oversell :
    successCount (twoInterleavedReserves raceTicket 2 2 5 6) = 2 ∧
      successCount (twoInterleavedReserves raceTicket 2 2 5 6) ≠
        Int.toNat (raceTicket.availableSeats / 2) := by
  decide

/-- A JavaScript numeric value as the reserve handler sees it: an actual
number, or NaN (which is what `undefined - n`, `n - undefined` and every
arithmetic involving a non-numeric body field produce). -/
inductive JSNum
  | num (val : Int)
  | nan
deriving DecidableEq, Repr

/-- JavaScript `<`: any comparison involving NaN (hence involving an
absent or non-numeric operand) is false. -/
def jsLt : JSNum → JSNum → Bool
  | JSNum.num a, JSNum.num b => decide (a < b)
  | _, _ => false

/-- JavaScript subtraction: NaN is absorbing. -/
def jsSub : JSNum → JSNum → JSNum
  | JSNum.num a, JSNum.num b => JSNum.num (a - b)
  | _, _ => JSNum.nan

/-- JavaScript `=== 0`: false for NaN. -/
def jsEqZero : JSNum → Bool
  | JSNum.num a => decide (a = 0)
  | JSNum.nan => false

/-- The seat-relevant part of a ticket document under JavaScript number
semantics, where `availableSeats` may hold NaN after corruption. -/
structure JsTicket where
  availableSeats : JSNum
  status : Status
  updatedAt : Int
deriving DecidableEq, Repr

/-- The reserve handler body under JavaScript semantics
(src/index.js lines 211-228): `quantity` is whatever `req.body.quantity`
held, coerced to NaN by the arithmetic when absent or non-numeric; the
guard is `ticket.availableSeats < quantity`, the decrement
`ticket.availableSeats -= quantity`, the sold-out test
`ticket.availableSeats === 0`. -/
def reserveJs (t : JsTicket) (quantity : JSNum) (now : Int) :
    ReserveResult × JsTicket :=
  if jsLt t.availableSeats quantity then
    (ReserveResult.insufficient, t)
  else
    let remaining := jsSub t.availableSeats quantity
    (ReserveResult.ok,
      { availableSeats := remaining
        status := if jsEqZero remaining then Status.soldOut else t.status
        updatedAt := now })

/-- On genuinely numeric inputs the JavaScript-semantics handler agrees
with the integer model `reserve`, so the two embeddings describe the same
code. -/
lemma reserveJs_agrees_on_numbers (t : Ticket) (q now : Int) :
    reserveJs ⟨JSNum.num t.availableSeats, t.status, t.updatedAt⟩
        (JSNum.num q) now =
      ((reserve t q now).1,
        ⟨JSNum.num (reserve t q now).2.availableSeats,
          (reserve t q now).2.status, (reserve t q now).2.updatedAt⟩) := by
  by_cases h : t.availableSeats < q
  · simp [reserveJs, reserve, jsLt, h]
  · simp [reserveJs, reserve, jsLt, jsSub, jsEqZero, h]

/-- A cancelled ticket with 2 seats left, the C8 counterexample input. -/
def cancelledTicket : Ticket :=
  { sampleTicket with availableSeats := 2, status := Status.cancelled }

/-- C8 counterexample: reserving the last 2 seats of a CANCELLED ticket
succeeds and overwrites the status with sold-out, so Reserve does change
a status away from cancelled. -/
theorem c8_reserve_overwrites_cancelled :
    cancelledTicket.status = Status.cancelled ∧
      (reserve cancelledTicket 2 5).1 = ReserveResult.ok ∧
      (reserve cancelledTicket 2 5).2.status = Status.soldOut ∧
      Status.soldOut ≠ Status.cancelled := by
  decide

/-- C8 amended: Release never moves a status away from cancelled or
completed, and Reserve preserves the status whenever the requested
quantity differs from `availableSeats`; but a Reserve of exactly
`availableSeats` seats succeeds and overwrites the status — cancelled or
completed included — with sold-out. -/
theorem c8_terminal_status_amended :
    (∀ (t : Ticket) (q now : Int),
        t.status = Status.cancelled ∨ t.status = Status.completed →
        (release t q now).status = t.status) ∧
    (∀ (t : Ticket) (q now : Int), t.availableSeats ≠ q →
        (reserve t q now).2.status = t.status) ∧
    (∀ (t : Ticket) (q now : Int), t.availableSeats = q →
        (reserve t q now).2.status = Status.soldOut) := by
  refine ⟨?_, ?_, ?_⟩
  · intro t q now hst
    have hne : ¬ t.status = Status.soldOut := by
      rcases hst with h | h <;> simp [h]
    simp [release, hne]
  · intro t q now hne
    by_cases h : t.availableSeats < q
    · simp [reserve, h]
    · have hz : t.availableSeats - q ≠ 0 := by omega
      simp [reserve, h, hz]
  · intro t q now heq
    have h : ¬ t.availableSeats < q := by omega
    have hz : t.availableSeats - q = 0 := by omega
    simp [reserve, h, hz]

/-- Witness for the amended C8 at concrete inputs: releasing onto the
cancelled sample ticket keeps it cancelled, a partial reserve keeps it
cancelled, and reserving its exact 2 remaining seats flips it to
sold-out. -/
theorem c8_terminal_status_witness :
    (release cancelledTicket 3 5).status = cancelledTicket.status ∧
      (reserve cancelledTicket 1 5).2.status = cancelledTicket.status ∧
      (reserve cancelledTicket 2 5).2.status = Status.soldOut :=
  ⟨c8_terminal_status_amended.1 cancelledTicket 3 5 (Or.inl (by decide)),
   c8_terminal_status_amended.2.1 cancelledTicket 1 5 (by decide),
   c8_terminal_status_amended.2.2 cancelledTicket 2 5 (by decide)⟩

/-- The query-string filter of GET /api/tickets (src/index.js lines
135-156): each field is present or absent independently. -/
structure ListFilter where
  eventType? : Option EventType
  status? : Option Status
  minPrice? : Option Rat
  maxPrice? : Option Rat
  date? : Option Int
deriving DecidableEq, Repr

/-- Milliseconds in one calendar day, the width of the handler's date
window `[searchDate, searchDate + 24*60*60*1000)`. -/
def dayMillis : Int := 24 * 60 * 60 * 1000

/-- The MongoDB filter document the handler builds: exact match on
`eventType` and `status`, `$gte`/`$lte` (inclusive) bounds on `price`,
and the half-open one-day window on `date`. -/
def matchesFilter (f : ListFilter) (t : Ticket) : Bool :=
  (match f.eventType? with
    | none => true
    | some e => t.eventType == e) &&
  (match f.status? with
    | none => true
    | some s => t.status == s) &&
  (match f.minPrice? with
    | none => true
    | some p => decide (p ≤ t.price)) &&
  (match f.maxPrice? with
    | none => true
    | some p => decide (t.price ≤ p)) &&
  (match f.date? with
    | none => true
    | some d => decide (d ≤ t.date) && decide (t.date < d + dayMillis))

/-- Filter semantics as the spec words them: eventType exact match, status
exact match, price within the inclusive lower/upper bounds when present,
date within the specified calendar day; an absent field constrains
nothing. -/
def SpecMatchesFilter (f : ListFilter) (t : Ticket) : Prop :=
  (∀ e, f.eventType? = some e → t.eventType = e) ∧
  (∀ s, f.status? = some s → t.status = s) ∧
  (∀ p, f.minPrice? = some p → p ≤ t.price) ∧
  (∀ p, f.maxPrice? = some p → t.price ≤ p) ∧
  (∀ d, f.date? = some d → d ≤ t.date ∧ t.date < d + dayMillis)

/-- The List handler: `Ticket.find(filter).sort(\x7b date: 1 \x7d)` —
select the matching records and return them ordered by ascending date. -/
def listTickets (store : List Ticket) (f : ListFilter) : List Ticket :=
  (store.filter (matchesFilter f)).mergeSort
    (fun a b => decide (a.date ≤ b.date))

/-- The filter built from an empty query string. -/
def emptyFilter : ListFilter :=
  ⟨none, none, none, none, none⟩

lemma matchesFilter_iff (f : ListFilter) (t : Ticket) :
    matchesFilter f t = true ↔ SpecMatchesFilter f t := by
  obtain ⟨e?, s?, mn?, mx?, d?⟩ := f
  cases e? <;> cases s? <;> cases mn? <;> cases mx? <;> cases d? <;>
    simp [matchesFilter, SpecMatchesFilter, and_assoc]

lemma ticketDateLe_trans (a b c : Ticket) :
    decide (a.date ≤ b.date) = true → decide (b.date ≤ c.date) = true →
    decide (a.date ≤ c.date) = true := by
  simp only [decide_eq_true_eq]
  omega

lemma ticketDateLe_total (a b : Ticket) :
    (decide (a.date ≤ b.date) || decide (b.date ≤ a.date)) = true := by
  simp only [Bool.or_eq_true, decide_eq_true_eq]
  omega

/-- C9: List returns exactly the stored records matching the filter —
eventType exact match, status exact match, price within the inclusive
bounds when present, date within the specified calendar day — ordered by
ascending date, and the empty filter returns every record. -/
theorem c9_list_filter (store : List Ticket) (f : ListFilter) :
    (∀ t, t ∈ listTickets store f ↔ t ∈ store ∧ SpecMatchesFilter f t) ∧
    List.Sorted (fun a b : Ticket => a.date ≤ b.date) (listTickets store f) ∧
    (∀ t, t ∈ listTickets store emptyFilter ↔ t ∈ store) := by
  refine ⟨?_, ?_, ?_⟩
  · intro t
    rw [listTickets, List.mem_mergeSort, List.mem_filter, matchesFilter_iff]
  · have hp := @List.sorted_mergeSort Ticket
      (fun a b => decide (a.date ≤ b.date))
      (fun a b c => ticketDateLe_trans a b c)
      (fun a b => ticketDateLe_total a b)
      (store.filter (matchesFilter f))
    exact hp.imp (fun h => of_decide_eq_true h)
  · intro t
    rw [listTickets, List.mem_mergeSort, List.mem_filter]
    simp [matchesFilter, emptyFilter]

/-- The 85-priced concert ticket of the spec's filter example. -/
def concertTicket : Ticket :=
  { sampleTicket with id := "dddddddddddddddddddddddd" }

/-- The 25-priced movie ticket of the spec's filter example. -/
def movieTicket : Ticket :=
  { sampleTicket with
    id := "eeeeeeeeeeeeeeeeeeeeeeee"
    eventName := "BlockBuster Movie Premiere"
    eventType := EventType.movie
    venue := "AMC Theater"
    date := 1732924800000
    time := "19:30"
    price := 25
    totalSeats := 200
    availableSeats := 200 }

/-- The two-ticket store of the spec's filter example. -/
def demoStore : List Ticket := [concertTicket, movieTicket]

/-- Witness for C9 at the spec's own example: over the store
{concert at 85, movie at 25}, filtering on eventType=concert keeps the
concert ticket and drops the movie ticket, the minPrice=50 result is
date-sorted, and the movie ticket survives the empty filter. -/
theorem c9_list_filter_witness :
    (concertTicket ∈ listTickets demoStore ⟨some EventType.concert, none, none, none, none⟩ ↔
      concertTicket ∈ demoStore ∧
        SpecMatchesFilter ⟨some EventType.concert, none, none, none, none⟩ concertTicket) ∧
    (movieTicket ∈ listTickets demoStore ⟨some EventType.concert, none, none, none, none⟩ ↔
      movieTicket ∈ demoStore ∧
        SpecMatchesFilter ⟨some EventType.concert, none, none, none, none⟩ movieTicket) ∧
    List.Sorted (fun a b : Ticket => a.date ≤ b.date)
      (listTickets demoStore ⟨none, none, some 50, none, none⟩) ∧
    (movieTicket ∈ listTickets demoStore emptyFilter ↔ movieTicket ∈ demoStore) :=
  ⟨(c9_list_filter demoStore ⟨some EventType.concert, none, none, none, none⟩).1 concertTicket,
   (c9_list_filter demoStore ⟨some EventType.concert, none, none, none, none⟩).1 movieTicket,
   (c9_list_filter demoStore ⟨none, none, some 50, none, none⟩).2.1,
   (c9_list_filter demoStore emptyFilter).2.2 movieTicket⟩

end TicketService
